import Mathlib

/-!
Shallow embedding of the Ftp2Http repository (src/path.py, src/file.py,
src/ftp.py) used to check the natural-language specification against the
code.  Python strings are Lean `String`s; Python string operations are
re-implemented on the underlying character lists so that all definitions
are executable and kernel-reducible.  Machine-level effects (filesystem,
FTP sockets) are modelled by explicit record-of-functions states passed
to the embedded operations.
-/

/-! ## Python string primitives -/

/-- Python `s.startswith(pre)`. -/
def strStartsWith (s pre : String) : Bool := pre.data.isPrefixOf s.data

/-- Python `s.endswith(suf)`. -/
def strEndsWith (s suf : String) : Bool := suf.data.isSuffixOf s.data

/-- Python slicing `s[n:]` (by code points). -/
def strDrop (s : String) (n : Nat) : String := ⟨s.data.drop n⟩

/-- Auxiliary for `pySplit`: fuel-based splitting of a character list by a
nonempty separator.  Each step consumes at least one character, so fuel
`length + 1` always suffices and the fuel-exhausted branch is unreachable. -/
def pySplitAux (sep : List Char) : Nat → List Char → List Char → List (List Char)
  | 0, _, acc => [acc.reverse]
  | fuel + 1, s, acc =>
    match s with
    | [] => [acc.reverse]
    | c :: cs =>
      if sep.isPrefixOf (c :: cs) then
        acc.reverse :: pySplitAux sep fuel ((c :: cs).drop sep.length) []
      else
        pySplitAux sep fuel cs (c :: acc)

/-- Python `s.split(sep)` for a nonempty separator `sep` (the only form the
source uses).  E.g. `"/A/B/".split("/") = ["", "A", "B", ""]` and, for any
nonempty `s`, `s.split(s) = ["", ""]`. -/
def pySplit (s sep : String) : List String :=
  if sep.data = [] then [s]
  else (pySplitAux sep.data (s.data.length + 1) s.data []).map (fun l => ⟨l⟩)

/-! ## Decimal rendering helpers (Python `f"{n:,}"` style) -/

/-- One decimal digit as a character. -/
def digitChar : Nat → Char
  | 0 => '0' | 1 => '1' | 2 => '2' | 3 => '3' | 4 => '4'
  | 5 => '5' | 6 => '6' | 7 => '7' | 8 => '8' | _ => '9'

/-- Decimal digits of `n`, most significant first (fuel-based; fuel `n + 1`
always suffices since the argument strictly decreases). -/
def natDigitsAux : Nat → Nat → List Char → List Char
  | 0, _, acc => acc
  | fuel + 1, n, acc =>
    if n < 10 then digitChar n :: acc
    else natDigitsAux fuel (n / 10) (digitChar (n % 10) :: acc)

/-- Decimal digits of `n`, most significant first. -/
def natDigits (n : Nat) : List Char := natDigitsAux (n + 1) n []

/-- Render a natural number in decimal. -/
def natToStr (n : Nat) : String := ⟨natDigits n⟩

/-- Chunks of at most three characters (fuel-based). -/
def chunk3Aux : Nat → List Char → List (List Char)
  | 0, _ => []
  | _, [] => []
  | fuel + 1, l => l.take 3 :: chunk3Aux fuel (l.drop 3)

/-- Python `f"{n:,}"`: decimal rendering with a comma every three digits,
grouped from the right. -/
def commify (n : Nat) : String :=
  let ds := natDigits n
  let groups := ((chunk3Aux (ds.length + 1) ds.reverse).map List.reverse).reverse
  ⟨(groups.intersperse [',']).flatten⟩

/-- Round `10 * size / div` to the nearest integer, ties to even: the number
of tenths CPython's `f"{size/div:,.1f}"` prints.  The model rounds the exact
rational; the double-precision quotient printed by CPython agrees whenever
`size/div` is not within double-rounding distance of a `.05` tie (all inputs
evaluated in this development are far from such ties). -/
def roundHalfEvenTenths (size div : Nat) : Nat :=
  let num := 10 * size
  let q := num / div
  let r := num % div
  if div < 2 * r then q + 1
  else if 2 * r < div then q
  else if q % 2 = 0 then q else q + 1

/-- Python `f"{size/div:,.1f}"`: one decimal digit, thousands separators on
the integer part. -/
def formatTenths (size div : Nat) : String :=
  let t := roundHalfEvenTenths size div
  commify (t / 10) ++ "." ++ ⟨[digitChar (t % 10)]⟩

/-- Floor of the base-1024 logarithm, `floorLogAux n n` (fuel-based).
Models CPython `int(log(n, 1024))`, which computes the quotient of two
double-precision logarithms.  The exact floor computed here agrees with
that double computation on all of `1 ≤ n ≤ 1024 ^ 5 - 4`: at exact powers
`1024 ^ k` the two rounded logarithms are exact binary scalings of each
other, so the quotient is exactly `k`; elsewhere in that range
`log_1024 n` stays at least about `2.6e-13` below the next integer while
the quotient's rounding error is below about `2e-15` (both verified
against CPython over a window of two thousand integers around every power
up to `1024 ^ 5`).  The agreement fails just below `1024 ^ 5`: at
`n = 1024 ^ 5 - 3 .. 1024 ^ 5 - 1` the double quotient rounds up to `5.0`,
where CPython yields 5 and this exact floor yields 4 — those three values
are kept outside every range quantified over below.  The larger individual
inputs evaluated below (`10000046545656476620`, `2 * 1024 ^ 5`) have
logarithms `6.31...` and `5.1`, far from any integer, where the two
computations agree. -/
def floorLogAux : Nat → Nat → Nat
  | 0, _ => 0
  | fuel + 1, n => if n < 1024 then 0 else floorLogAux fuel (n / 1024) + 1

/-- `floorLog1024 n = ⌊log_1024 n⌋` for `n ≥ 1` (see `floorLogAux` for the
region where this is a faithful model of CPython's `int(log(n, 1024))`). -/
def floorLog1024 (n : Nat) : Nat := floorLogAux n n

/-! ## Python exception values raised by the embedded code -/

/-- The exceptions the embedded source can raise. -/
inductive PyError
  | fileNotFoundError (arg : Option String)
  | notADirectoryError (arg : String)
  | isADirectoryError
  | valueError (msg : String)
  | indexError (msg : String)
  | ftpException (msg : String)
deriving DecidableEq, Repr

instance {ε α : Type} [DecidableEq ε] [DecidableEq α] : DecidableEq (Except ε α) :=
  fun x y =>
    match x, y with
    | .ok a, .ok b =>
      if h : a = b then isTrue (h ▸ rfl) else isFalse (fun e => h (Except.ok.inj e))
    | .error a, .error b =>
      if h : a = b then isTrue (h ▸ rfl) else isFalse (fun e => h (Except.error.inj e))
    | .ok _, .error _ => isFalse (fun h => Except.noConfusion h)
    | .error _, .ok _ => isFalse (fun h => Except.noConfusion h)

/-! ## `src/path.py` — `PathInfo` -/

/-- `PathInfo.ROOT = "Y:"`. -/
def PathInfo.ROOT : String := "Y:"

/-- `PathInfo`: holds `self._path = ROOT + normalized`. -/
structure PathInfo where
  pathStr : String
deriving DecidableEq, Repr

/-- `PathInfo.__init__`: prepend `/` if missing, append `/` if missing,
then prefix `ROOT`. -/
def PathInfo.ofString (path_without_root : String) : PathInfo :=
  let p := if strStartsWith path_without_root "/" then path_without_root
           else "/" ++ path_without_root
  let p := if strEndsWith p "/" then p else p ++ "/"
  ⟨PathInfo.ROOT ++ p⟩

/-- `PathInfo.full_path_with_root`. -/
def PathInfo.full_path_with_root (pi : PathInfo) : String := pi.pathStr

/-- `PathInfo.full_path`: `self._path[len(self.ROOT):]`. -/
def PathInfo.full_path (pi : PathInfo) : String :=
  strDrop pi.pathStr PathInfo.ROOT.length

/-- `PathInfo.full_path_for_url`: `self.full_path[1:]`. -/
def PathInfo.full_path_for_url (pi : PathInfo) : String :=
  strDrop pi.full_path 1

/-- `PathInfo.full_paths_from_root`: iterate the sections of
`full_path.split("/")`, skip empty sections, accumulate `ret += section + "/"`
and yield `(section, ret)`.  The generator is modelled as the list of its
yielded pairs (it is a pure function of the path). -/
def PathInfo.full_paths_from_root (pi : PathInfo) : List (String × String) :=
  (((pySplit pi.full_path "/").filter (fun s => s != "")).foldl
    (fun acc sec =>
      let ret := acc.1 ++ sec ++ "/"
      (ret, acc.2 ++ [(sec, ret)]))
    ("", [])).2

example : (PathInfo.ofString "/A/B/C/").full_path = "/A/B/C/" := by decide

/-! ## `src/file.py` / `src/ftp.py` — `FileSize`
(the two modules contain byte-identical copies of this class) -/

namespace FileSize

/-- `FileSize._conv_unit = ["B", "KB", "MB", "GB", "TB"]`. -/
def conv_unit : List String := ["B", "KB", "MB", "GB", "TB"]

/-- `FileSize._format_size`:
`unit_base = min(int(log(size, 1024)), len(_conv_unit))`;
`unit = _conv_unit[unit_base]`; `div_base = 1024 ** unit_base`;
`f"{size / div_base:,.1f} {unit}"`.
A size of `0` makes `log` raise `ValueError: math domain error`, and an
out-of-range `unit_base` makes the list indexing raise `IndexError`. -/
def format_size (size : Nat) : Except PyError String :=
  if size = 0 then .error (.valueError "math domain error")
  else
    let unit_base := min (floorLog1024 size) conv_unit.length
    match conv_unit.get? unit_base with
    | none => .error (.indexError "list index out of range")
    | some unit => .ok (formatTenths size (1024 ^ unit_base) ++ " " ++ unit)

/-- `FileSize.formatted`: memoizes `_format_size` in a dict keyed by the
exact byte count.  Since `_format_size` is a pure function of the size, the
cache is semantically the identity and `formatted` equals `_format_size`. -/
def formatted (size : Nat) : Except PyError String := format_size size

/-- `FileSize.original`: `f"{size:,} B"`. -/
def original (size : Nat) : String := commify size ++ " B"

end FileSize

example : FileSize.original 1002 = "1,002 B" := by decide

/-! ## Timestamp rendering
`datetime.fromtimestamp(ts, tz=timezone.utc).strftime("%Y-%m-%d %H:%M:%S")`
for whole-second timestamps (proleptic Gregorian civil-from-days
conversion). -/

/-- Zero-padded two-digit decimal. -/
def pad2 (n : Nat) : String := if n < 10 then "0" ++ natToStr n else natToStr n

/-- Zero-padded four-digit decimal. -/
def pad4 (n : Nat) : String :=
  if n < 10 then "000" ++ natToStr n
  else if n < 100 then "00" ++ natToStr n
  else if n < 1000 then "0" ++ natToStr n
  else natToStr n

/-- Civil date (year, month, day) of a day count relative to 1970-01-01. -/
def civilFromDays (z0 : Int) : Int × Nat × Nat :=
  let z := z0 + 719468
  let era : Int := (if 0 ≤ z then z else z - 146096) / 146097
  let doe : Nat := (z - era * 146097).toNat
  let yoe : Nat := (doe - doe / 1460 + doe / 36524 - doe / 146096) / 365
  let doy : Nat := doe - (365 * yoe + yoe / 4 - yoe / 100)
  let mp : Nat := (5 * doy + 2) / 153
  let d : Nat := doy - (153 * mp + 2) / 5 + 1
  let m : Nat := if mp < 10 then mp + 3 else mp - 9
  let y : Int := (yoe : Int) + era * 400 + (if m ≤ 2 then 1 else 0)
  (y, m, d)

/-- UTC `"%Y-%m-%d %H:%M:%S"` rendering of a POSIX timestamp in whole
seconds (`st_mtime` is a float in Python; sub-second digits never reach the
rendered string). -/
def formatUtcTimestamp (ts : Int) : String :=
  let days := Int.fdiv ts 86400
  let sod := (Int.emod ts 86400).toNat
  let ymd := civilFromDays days
  pad4 ymd.1.toNat ++ "-" ++ pad2 ymd.2.1 ++ "-" ++ pad2 ymd.2.2 ++ " " ++
    pad2 (sod / 3600) ++ ":" ++ pad2 (sod % 3600 / 60) ++ ":" ++ pad2 (sod % 60)

example : formatUtcTimestamp 0 = "1970-01-01 00:00:00" := by decide

example : formatUtcTimestamp 1609459199 = "2020-12-31 23:59:59" := by decide

/-! ## `src/file.py` — local filesystem backend -/

/-- The relevant fields of `os.stat_result`. -/
structure Stat where
  st_mode : Nat
  st_size : Nat
  st_mtime : Int
deriving DecidableEq, Repr

/-- Abstract local filesystem state: the `pathlib.Path` queries the module
performs.  `iterdir` lists the immediate children of a directory as path
strings (backend-native order). -/
structure FS where
  path_exists : String → Bool
  is_dir : String → Bool
  iterdir : String → List String
  stat : String → Stat

/-- `stat.S_ISDIR(mode)`: the file-format bits (octal `170000` mask) equal
`S_IFDIR` (octal `040000`), i.e. `mode / 4096 % 16 = 4`. -/
def S_ISDIR (mode : Nat) : Bool := mode / 4096 % 16 == 4

/-- `EntryType` enum from `src/file.py`. -/
inductive EntryType
  | DIRECTORY
  | FILE
deriving DecidableEq, Repr

/-- `EntryType.parse_from_mode`. -/
def EntryType.parse_from_mode (mode : Nat) : EntryType :=
  if S_ISDIR mode then .DIRECTORY else .FILE

/-- `pathlib`'s `Path(p).name`: the last non-empty `/`-separated component,
after discarding a leading drive component (`"Y:"`); empty when no such
component exists. -/
def pathlibName (p : String) : String :=
  let segs := (pySplit p "/").filter (fun s => s != "")
  let segs := match segs with
    | s :: rest => if strEndsWith s ":" then rest else s :: rest
    | [] => []
  match segs.getLast? with
  | some s => s
  | none => ""

example : pathlibName "Y:/A/B.mp4" = "B.mp4" := by decide

example : pathlibName "Y:/A/B.mp4/" = "B.mp4" := by decide

/-- `FileEntry` dataclass from `src/file.py`.  The `FileSize` member stores
the raw byte count (its rendering is `FileSize.formatted`). -/
structure FileEntry where
  entry_type : EntryType
  file_name : String
  file_size : Nat
  modified_utc_str : String
deriving DecidableEq, Repr

/-- `FileEntry.parse_from_path`: stat the child path and build the entry. -/
def FileEntry.parse_from_path (fs : FS) (pure_path : String) : FileEntry :=
  let file_stats := fs.stat pure_path
  { entry_type := EntryType.parse_from_mode file_stats.st_mode
    file_name := pathlibName pure_path
    file_size := file_stats.st_size
    modified_utc_str := formatUtcTimestamp file_stats.st_mtime }

namespace File

/-- The `path` local of `get_file_entries`:
`Path(PathInfo(path).full_path_with_root)`. -/
def resolved (raw : String) : String :=
  (PathInfo.ofString raw).full_path_with_root

/-- Execution state of the `get_file_entries` generator: the body has
either not started, or is part-way through the `iterdir` loop. -/
inductive GenState
  | unstarted
  | running (remaining : List String)

/-- A `get_file_entries` generator object.  Calling the generator function
only builds this value; none of the body (including the `exists` /
`is_dir` checks) runs until the generator is advanced. -/
structure EntriesGen where
  fs : FS
  path : String
  state : GenState

/-- Yield the next entry of the `iterdir` loop. -/
def EntriesGen.emit (g : EntriesGen) (rem : List String) :
    Except PyError (Option (FileEntry × EntriesGen)) :=
  match rem with
  | [] => .ok none
  | c :: rest =>
    .ok (some (FileEntry.parse_from_path g.fs c, { g with state := .running rest }))

/-- Advance the generator once (`next(gen)`).  On the first advance the
body runs from the top: raise `FileNotFoundError(path)` if the path does
not exist, raise `NotADirectoryError(path)` if it is not a directory, then
start yielding one `FileEntry` per `iterdir` child. -/
def EntriesGen.next (g : EntriesGen) : Except PyError (Option (FileEntry × EntriesGen)) :=
  match g.state with
  | .unstarted =>
    if g.fs.path_exists g.path = false then
      .error (.fileNotFoundError (some g.path))
    else if g.fs.is_dir g.path = false then
      .error (.notADirectoryError g.path)
    else g.emit (g.fs.iterdir g.path)
  | .running rem => g.emit rem

/-- Fully drain the generator into a list (what the caller's response
rendering does): the error, if any, of the first advance, else every
yielded entry. -/
def EntriesGen.drain (g : EntriesGen) : Except PyError (List FileEntry) :=
  match g.state with
  | .unstarted =>
    if g.fs.path_exists g.path = false then
      .error (.fileNotFoundError (some g.path))
    else if g.fs.is_dir g.path = false then
      .error (.notADirectoryError g.path)
    else .ok ((g.fs.iterdir g.path).map (FileEntry.parse_from_path g.fs))
  | .running rem => .ok (rem.map (FileEntry.parse_from_path g.fs))

/-- `get_file_entries(path)` from `src/file.py`: being a generator
function, the call itself performs no filesystem access and cannot raise;
it returns the unstarted generator object. -/
def get_file_entries (fs : FS) (raw : String) : EntriesGen :=
  { fs := fs, path := resolved raw, state := .unstarted }

/-- `FileForDownload` from `src/file.py` (the fields captured by
`__init__`; `stream` opens a fresh file descriptor lazily and carries no
further data). -/
structure FileForDownload where
  path : String
  file_name : String
  file_size : Nat
deriving DecidableEq, Repr

/-- `FileForDownload.__init__`: raise `FileNotFoundError()` if the path
does not exist, raise `IsADirectoryError()` if it is a directory,
otherwise capture `Path.name` and `stat().st_size`. -/
def FileForDownload.init (fs : FS) (path_info : PathInfo) :
    Except PyError FileForDownload :=
  let p := path_info.full_path_with_root
  if fs.path_exists p = false then .error (.fileNotFoundError none)
  else if fs.is_dir p = true then .error .isADirectoryError
  else .ok { path := p, file_name := pathlibName p, file_size := (fs.stat p).st_size }

/-- `retrieve_file(path_info)` from `src/file.py`: constructs the
`FileForDownload` with no exception handling, so its errors propagate. -/
def retrieve_file (fs : FS) (path_info : PathInfo) : Except PyError FileForDownload :=
  FileForDownload.init fs path_info

end File

/-! ## `src/ftp.py` — FTP backend -/

namespace Ftp

/-- Reply of `ftplib.FTP.size(path)`: an integer, or an
`ftplib.error_perm` (e.g. a 550 permission reply), or some other
exception. -/
inductive FtpSizeReply
  | ok (n : Nat)
  | error_perm (msg : String)
  | otherExc (msg : String)
deriving DecidableEq, Repr

/-- Abstract FTP session (the module-level `ftp` client): `size` answers
the `SIZE` control-connection query; `retr` is the byte sequence the
dedicated data connection opened by `transfercmd("RETR " + path)` will
serve for a path. -/
structure FTPClient where
  size : String → FtpSizeReply
  retr : String → List Nat

/-- State of the dedicated data connection: the bytes not yet received. -/
structure DataConn where
  buffered : List Nat
deriving DecidableEq, Repr

/-- `FTPFileStream` instance state.  The Python object also holds the
`ftp_client` reference; the session is passed explicitly to the operations
here because it is a record of functions. -/
structure FTPFileStream where
  ftp_path : String
  file_size : Nat
  file_name : String
  block_size : Nat
  conn : Option DataConn
deriving DecidableEq, Repr

/-- The `default_block_size` keyword default of `FTPFileStream.__init__`:
`8196`. -/
def defaultBlockSize : Nat := 8196

/-- `FTPFileStream.__init__`: query `ftp_client.size(full_path)` up front,
turning an `error_perm` into `FileNotFoundError(path)` (other exceptions
propagate); then compute
`self._file_name = self._ftp_path.split(self._ftp_path)[-1]` — the path
split by itself, which is `["", ""]`, so the final `[-1]` element is always
the empty string (a nonempty split list, so the indexing cannot raise). -/
def FTPFileStream.init (client : FTPClient) (path_info : PathInfo)
    (default_block_size : Nat) : Except PyError FTPFileStream :=
  let ftpPath := path_info.full_path
  match client.size ftpPath with
  | .error_perm _ => .error (.fileNotFoundError (some ftpPath))
  | .otherExc m => .error (.ftpException m)
  | .ok sz =>
    let nm := match (pySplit ftpPath ftpPath).getLast? with
      | some s => s
      | none => ""
    .ok { ftp_path := ftpPath, file_size := sz, file_name := nm,
          block_size := default_block_size, conn := none }

/-- The body of `FTPFileStream.read` after the block size has been
resolved: open the data connection with `transfercmd("RETR " + path)` if it
is not yet open, `recv` at most `block_size` bytes, and on an empty `recv`
close the connection and return `None`. -/
def FTPFileStream.readWith (s : FTPFileStream) (client : FTPClient)
    (block_size : Nat) : Option (List Nat) × FTPFileStream :=
  let conn : DataConn := match s.conn with
    | some c => c
    | none => ⟨client.retr s.ftp_path⟩
  let data := conn.buffered.take block_size
  if data.isEmpty then
    (none, { s with conn := some ⟨[]⟩ })
  else
    (some data, { s with conn := some ⟨conn.buffered.drop block_size⟩ })

/-- `FTPFileStream.read(block_size=None)`: `if not block_size` replaces a
`None` (or falsy `0`) argument by `self._block_size`, then the body runs
with the resolved size. -/
def FTPFileStream.read (s : FTPFileStream) (client : FTPClient)
    (block_size : Option Nat) : Option (List Nat) × FTPFileStream :=
  let bs := match block_size with
    | none => s.block_size
    | some 0 => s.block_size
    | some b => b
  s.readWith client bs

/-- `retrieve_file(path_info)` from `src/ftp.py`: construct the stream
with the module-level client and the default block size, but catch
`FileNotFoundError` and return `None` in its place. -/
def retrieve_file (client : FTPClient) (path_info : PathInfo) :
    Except PyError (Option FTPFileStream) :=
  match FTPFileStream.init client path_info defaultBlockSize with
  | .ok s => .ok (some s)
  | .error (.fileNotFoundError _) => .ok none
  | .error e => .error e

end Ftp

/-! ## Concrete states used to instantiate the theorems -/

/-- A filesystem holding the directory `Y:/A/` with the single file
`Y:/A/B.mp4` in it (mode `0o40755` for the directory, `0o100644` for the
file). -/
def exampleFS : FS :=
  { path_exists := fun p => p == "Y:/A/" || p == "Y:/A/B.mp4" || p == "Y:/A/B.mp4/"
    is_dir := fun p => p == "Y:/A/"
    iterdir := fun p => if p == "Y:/A/" then ["Y:/A/B.mp4"] else []
    stat := fun p =>
      if p == "Y:/A/B.mp4" || p == "Y:/A/B.mp4/" then ⟨33188, 23095254, 1609459199⟩
      else ⟨16877, 4096, 0⟩ }

/-- An FTP session that answers every `SIZE` query with a permission
error. -/
def permClient : Ftp.FTPClient :=
  { size := fun _ => .error_perm "550 Permission denied."
    retr := fun _ => [] }

/-- An FTP session that reports size 1000 for every path. -/
def stubClient : Ftp.FTPClient :=
  { size := fun _ => .ok 1000
    retr := fun _ => [] }

/-- An FTP session serving a 9000-byte file at every path. -/
def bigClient : Ftp.FTPClient :=
  { size := fun _ => .ok 9000
    retr := fun _ => List.replicate 9000 7 }

/-! ## Specification-side definition for the size-formula refinement -/

/-- The size formula as the specification words it (for comparison with the
source-derived `FileSize.format_size`): `unitIndex = min(floor(log_1024
bytes), 4)`, `divisor = 1024 ^ unitIndex`, value rendered with one decimal
digit and thousands separators, followed by the unit abbreviation. -/
def specSizeFormat (b : Nat) : String :=
  let unitIndex := min (floorLog1024 b) 4
  formatTenths b (1024 ^ unitIndex) ++ " " ++ FileSize.conv_unit.getD unitIndex ""

/-- The fuel-based floor logarithm respects upper bounds: if
`n < 1024 ^ (k + 1)` then `floorLogAux fuel n ≤ k`. -/
theorem floorLogAux_le (fuel : Nat) :
    ∀ n k : Nat, n < 1024 ^ (k + 1) → floorLogAux fuel n ≤ k := by
  induction fuel with
  | zero => intro n k _; exact Nat.zero_le k
  | succ fuel ih =>
    intro n k h
    simp only [floorLogAux]
    split
    · exact Nat.zero_le k
    · rename_i hn
      match k with
      | 0 =>
        exact absurd h (by simpa using hn)
      | k + 1 =>
        have hlt : n / 1024 < 1024 ^ (k + 1) := by
          apply Nat.div_lt_of_lt_mul
          calc n < 1024 ^ (k + 1 + 1) := h
            _ = 1024 * 1024 ^ (k + 1) := by ring
        exact Nat.succ_le_succ (ih (n / 1024) k hlt)

/-- Below `1024 ^ 5` the unit index stays within the unit table. -/
theorem floorLog1024_le_four (b : Nat) (h : b < 1024 ^ 5) : floorLog1024 b ≤ 4 :=
  floorLogAux_le b b 4 (by simpa using h)

/-! ## Claim theorems -/

/-- C1: the claim says `full_paths_from_root` on `"/A/B/C/"` yields
`[("A","/A/"), ("B","/A/B/"), ("C","/A/B/C/")]` with every cumulative path
starting with `/`.  The code accumulates `ret` from the empty string, so it
actually yields `[("A","A/"), ("B","A/B/"), ("C","A/B/C/")]`: no cumulative
path carries the leading separator promised by the claim and by the
function's own docstring. -/
theorem full_paths_from_root_missing_leading_slash :
    (PathInfo.ofString "/A/B/C/").full_paths_from_root =
      [("A", "A/"), ("B", "A/B/"), ("C", "A/B/C/")] ∧
    (PathInfo.ofString "/A/B/C/").full_paths_from_root ≠
      [("A", "/A/"), ("B", "/A/B/"), ("C", "/A/B/C/")] := by decide

/-- C2: the claim says the FTP download handle's `file_name` equals the
final segment of the requested path.  The code computes
`self._ftp_path.split(self._ftp_path)[-1]` — the path split by itself —
which is always the empty string: for the request `"A/B.mp4"` (FTP path
`"/A/B.mp4/"`, size query succeeding) the constructed handle's name is
`""`, not `"B.mp4"`. -/
theorem ftp_file_name_is_empty_string :
    (Ftp.FTPFileStream.init stubClient (PathInfo.ofString "A/B.mp4")
        Ftp.defaultBlockSize).map (fun s => s.file_name) = .ok "" ∧
    ("" : String) ≠ "B.mp4" := by decide

/-- C3: the claim says every byte count at or beyond `1024 ^ 4` formats
normally with unit `"TB"` because the unit index is capped at 4.  The code
caps the index at `len(_conv_unit) = 5`, so the docstring's own example
`10000046545656476620` (which its docstring promises renders as
`"8,881.8 TB"`, and which is at least `1024 ^ 4`) reaches index 5 and the
unit lookup raises `IndexError`. -/
theorem format_size_index_error_on_docstring_example :
    FileSize.formatted 10000046545656476620 =
      .error (.indexError "list index out of range") ∧
    1024 ^ 4 ≤ 10000046545656476620 := by decide

/-- C4: the claim says `format(0)` returns `"0.0 B"` with the zero case
never passed to the logarithm.  The code has no zero guard: `log(0, 1024)`
raises `ValueError: math domain error`. -/
theorem format_size_value_error_on_zero :
    FileSize.formatted 0 = .error (.valueError "math domain error") := by decide

/-- C5 (counterexample): the claim says the `NotFound` error from a failed
size query surfaces unchanged out of `retrieve_file`.  With a session whose
`SIZE` query answers `error_perm`, `retrieve_file` returns `None`
normally — the `FileNotFoundError` raised inside `FTPFileStream.__init__`
is caught and suppressed. -/
theorem ftp_retrieve_file_swallows_not_found :
    Ftp.retrieve_file permClient (PathInfo.ofString "A/B.mp4") = .ok none ∧
    Ftp.retrieve_file permClient (PathInfo.ofString "A/B.mp4") ≠
      .error (.fileNotFoundError (some "/A/B.mp4/")) := by decide

/-- C5 (amended): whenever the size query answers `error_perm`, the stream
constructor fails with `FileNotFoundError` on the requested path — but
`retrieve_file` catches that error and returns `None` to its caller
instead of propagating it. -/
theorem ftp_perm_error_not_found_but_caught
    (client : Ftp.FTPClient) (path_info : PathInfo) (msg : String)
    (h : client.size path_info.full_path = .error_perm msg) :
    Ftp.FTPFileStream.init client path_info Ftp.defaultBlockSize =
      .error (.fileNotFoundError (some path_info.full_path)) ∧
    Ftp.retrieve_file client path_info = .ok none := by
  constructor
  · simp [Ftp.FTPFileStream.init, h]
  · simp [Ftp.retrieve_file, Ftp.FTPFileStream.init, h]

/-- C5 witness: the amended statement instantiated on a concrete session
that denies every size query. -/
theorem ftp_perm_error_not_found_but_caught_witness :
    Ftp.FTPFileStream.init permClient (PathInfo.ofString "B.mp4")
        Ftp.defaultBlockSize =
      .error (.fileNotFoundError (some (PathInfo.ofString "B.mp4").full_path)) ∧
    Ftp.retrieve_file permClient (PathInfo.ofString "B.mp4") = .ok none :=
  ftp_perm_error_not_found_but_caught permClient (PathInfo.ofString "B.mp4")
    "550 Permission denied." (by decide)

/-- C6: draining a local listing fails with `FileNotFoundError` exactly
when the resolved path does not exist, fails with `NotADirectoryError`
exactly when the path exists but is not a directory, and otherwise yields
one entry per immediate child (the image of `iterdir` under
`FileEntry.parse_from_path`). -/
theorem get_file_entries_error_taxonomy (fs : FS) (raw : String) :
    ((File.get_file_entries fs raw).drain
        = .error (.fileNotFoundError (some (File.resolved raw)))
      ↔ fs.path_exists (File.resolved raw) = false) ∧
    ((File.get_file_entries fs raw).drain
        = .error (.notADirectoryError (File.resolved raw))
      ↔ (fs.path_exists (File.resolved raw) = true ∧
         fs.is_dir (File.resolved raw) = false)) ∧
    (fs.path_exists (File.resolved raw) = true →
     fs.is_dir (File.resolved raw) = true →
     (File.get_file_entries fs raw).drain
        = .ok ((fs.iterdir (File.resolved raw)).map (FileEntry.parse_from_path fs))) := by
  cases hE : fs.path_exists (File.resolved raw) <;>
    cases hD : fs.is_dir (File.resolved raw) <;>
      simp [File.get_file_entries, File.EntriesGen.drain, hE, hD]

/-- C6 witness: on a filesystem where `Y:/A/` is a directory holding
`B.mp4`, listing `"A"` drains to exactly the parsed child entries. -/
theorem get_file_entries_error_taxonomy_witness :
    (File.get_file_entries exampleFS "A").drain =
      .ok ((exampleFS.iterdir (File.resolved "A")).map
        (FileEntry.parse_from_path exampleFS)) :=
  (get_file_entries_error_taxonomy exampleFS "A").2.2 (by decide) (by decide)

/-- C7: opening a local download fails with `FileNotFoundError` exactly
when the resolved path does not exist, fails with `IsADirectoryError`
exactly when it is a directory (assuming, as on a real filesystem, that a
directory path exists), and otherwise returns a handle carrying the
file's `Path.name` and `stat().st_size`; `retrieve_file` adds no handling
of its own, so these errors propagate to its caller. -/
theorem local_retrieve_file_error_taxonomy (fs : FS) (raw : String)
    (hwf : fs.is_dir (File.resolved raw) = true →
           fs.path_exists (File.resolved raw) = true) :
    (File.retrieve_file fs (PathInfo.ofString raw) = .error (.fileNotFoundError none)
      ↔ fs.path_exists (File.resolved raw) = false) ∧
    (File.retrieve_file fs (PathInfo.ofString raw) = .error .isADirectoryError
      ↔ fs.is_dir (File.resolved raw) = true) ∧
    (∀ fd, File.retrieve_file fs (PathInfo.ofString raw) = .ok fd →
      fd.file_name = pathlibName (File.resolved raw) ∧
      fd.file_size = (fs.stat (File.resolved raw)).st_size) := by
  simp only [File.resolved] at hwf ⊢
  cases hE : fs.path_exists (PathInfo.ofString raw).full_path_with_root <;>
    cases hD : fs.is_dir (PathInfo.ofString raw).full_path_with_root
  · simp [File.retrieve_file, File.FileForDownload.init, hE, hD]
  · simp [hD] at hwf
    simp [hwf] at hE
  · refine ⟨?_, ?_, ?_⟩
    · simp [File.retrieve_file, File.FileForDownload.init, hE, hD]
    · simp [File.retrieve_file, File.FileForDownload.init, hE, hD]
    · intro fd hfd
      simp [File.retrieve_file, File.FileForDownload.init, hE, hD] at hfd
      subst hfd
      exact ⟨rfl, rfl⟩
  · simp [File.retrieve_file, File.FileForDownload.init, hE, hD]

/-- C7 witness: the taxonomy instantiated on the concrete example
filesystem at the file path `"A/B.mp4"`. -/
theorem local_retrieve_file_error_taxonomy_witness :
    (File.retrieve_file exampleFS (PathInfo.ofString "A/B.mp4") =
        .error (.fileNotFoundError none)
      ↔ exampleFS.path_exists (File.resolved "A/B.mp4") = false) ∧
    (File.retrieve_file exampleFS (PathInfo.ofString "A/B.mp4") =
        .error .isADirectoryError
      ↔ exampleFS.is_dir (File.resolved "A/B.mp4") = true) ∧
    (∀ fd, File.retrieve_file exampleFS (PathInfo.ofString "A/B.mp4") = .ok fd →
      fd.file_name = pathlibName (File.resolved "A/B.mp4") ∧
      fd.file_size = (exampleFS.stat (File.resolved "A/B.mp4")).st_size) :=
  local_retrieve_file_error_taxonomy exampleFS "A/B.mp4" (by decide)

/-- C10: `get_file_entries` is a generator function, so the call itself
performs none of the checks — it returns the unstarted generator object
for every filesystem and path, valid or not — and the
`FileNotFoundError` / `NotADirectoryError` appears only when the
generator is first advanced.  A caller that never advances the generator
therefore never observes the error. -/
theorem get_file_entries_checks_are_lazy (fs : FS) (raw : String) :
    File.get_file_entries fs raw =
      { fs := fs, path := File.resolved raw, state := .unstarted } ∧
    (fs.path_exists (File.resolved raw) = false →
      (File.get_file_entries fs raw).next =
        .error (.fileNotFoundError (some (File.resolved raw)))) ∧
    (fs.path_exists (File.resolved raw) = true →
      fs.is_dir (File.resolved raw) = false →
      (File.get_file_entries fs raw).next =
        .error (.notADirectoryError (File.resolved raw))) := by
  refine ⟨rfl, ?_, ?_⟩
  · intro h1
    simp [File.get_file_entries, File.EntriesGen.next, h1]
  · intro h1 h2
    simp [File.get_file_entries, File.EntriesGen.next, h1, h2]

/-- C10 witness: calling the listing on a non-existent path returns the
generator normally; the `FileNotFoundError` only appears at the first
advance. -/
theorem get_file_entries_checks_are_lazy_witness :
    (File.get_file_entries exampleFS "Nope").next =
      .error (.fileNotFoundError (some (File.resolved "Nope"))) :=
  (get_file_entries_checks_are_lazy exampleFS "Nope").2.1 (by decide)

/-- C8 (counterexample): the claim says the formatter follows
`unitIndex = min(floor(log_1024 bytes), 4)` for every byte count, which
would render `2 * 1024 ^ 5` with unit `"TB"`.  The code caps the index at
`len(_conv_unit) = 5` instead, so at that input the unit lookup raises
`IndexError` rather than following the formula. -/
theorem format_size_index_error_beyond_TB :
    FileSize.formatted 2251799813685248 =
      .error (.indexError "list index out of range") ∧
    2251799813685248 = 2 * 1024 ^ 5 := by decide

/-- C8 (amended): on the byte counts where the computed unit index stays
within the table — `1 ≤ b ≤ 1024 ^ 5 - 4`, the region where the exact
floor logarithm provably coincides with CPython's double-precision
`int(log(b, 1024))` (see `floorLogAux`) — the formatter agrees exactly
with the specification formula (`unitIndex = min(floor(log_1024 b), 4)`,
divisor `1024 ^ unitIndex`, one decimal digit, thousands separators, unit
abbreviation); in particular `format(23095254) = "22.0 MB"` and
`format(1002) = "1,002.0 B"` (the formula, not the docstring example
`"1,002 B"`).  Outside that range the code does not follow the formula:
`format(0)` raises `ValueError`; at `b = 1024 ^ 5 - 3 .. 1024 ^ 5 - 1` the
double logarithm already rounds the unit index up to 5 and the unit lookup
raises `IndexError`; and for byte counts whose exact index reaches 5 it
raises `IndexError` instead of capping at `"TB"`. -/
theorem formatted_follows_capped_formula_below_TB :
    (∀ b : Nat, 1 ≤ b → b + 3 < 1024 ^ 5 →
      FileSize.formatted b = .ok (specSizeFormat b)) ∧
    FileSize.formatted 23095254 = .ok "22.0 MB" ∧
    FileSize.formatted 1002 = .ok "1,002.0 B" := by
  refine ⟨?_, by decide, by decide⟩
  intro b hb1 hb2
  have hb0 : b ≠ 0 := by omega
  have hl : floorLog1024 b ≤ 4 :=
    floorLog1024_le_four b (Nat.lt_of_le_of_lt (Nat.le_add_right b 3) hb2)
  have hcases : floorLog1024 b = 0 ∨ floorLog1024 b = 1 ∨ floorLog1024 b = 2 ∨
      floorLog1024 b = 3 ∨ floorLog1024 b = 4 := by omega
  rcases hcases with h | h | h | h | h <;>
    simp [FileSize.formatted, FileSize.format_size, specSizeFormat,
      FileSize.conv_unit, hb0, h]

/-- C8 witness: the formula part applied at the concrete byte count 5. -/
theorem formatted_follows_capped_formula_below_TB_witness :
    FileSize.formatted 5 = .ok (specSizeFormat 5) :=
  formatted_follows_capped_formula_below_TB.1 5 (by decide) (by decide)

/-- Helper: a successfully constructed `FTPFileStream` carries the block
size it was constructed with. -/
theorem ftp_init_block_size (client : Ftp.FTPClient) (path_info : PathInfo)
    (bs : Nat) (s : Ftp.FTPFileStream)
    (h : Ftp.FTPFileStream.init client path_info bs = .ok s) : s.block_size = bs := by
  simp only [Ftp.FTPFileStream.init] at h
  cases hs : client.size path_info.full_path <;> rw [hs] at h <;> simp at h
  rw [← h]

/-- C9 (counterexample): the claim says the stream reads 8192-byte blocks
when the caller specifies none.  The `default_block_size` keyword default
is `8196`: a stream built by `retrieve_file` carries block size 8196, and
its first argument-less `read` on a 9000-byte file receives a block of
exactly 8196 bytes, not 8192. -/
theorem ftp_default_block_is_8196_not_8192 :
    (Ftp.FTPFileStream.init bigClient (PathInfo.ofString "A/big.bin")
        Ftp.defaultBlockSize).map (fun s => s.block_size) = .ok 8196 ∧
    (({ ftp_path := "/A/big.bin/", file_size := 9000, file_name := "",
        block_size := 8196, conn := none } : Ftp.FTPFileStream).read bigClient
          none).1.map List.length = some 8196 ∧
    (8196 : Nat) ≠ 8192 := by
  refine ⟨by decide, ?_, by decide⟩
  have h1 : (List.replicate 9000 (7 : Nat)).take 8196 = List.replicate 8196 7 := by
    rw [List.take_replicate]
    norm_num
  have h2 : (List.replicate 8196 (7 : Nat)).isEmpty = false := by
    show (List.replicate (8195 + 1) (7 : Nat)).isEmpty = false
    rw [List.replicate_succ]
    rfl
  simp only [Ftp.FTPFileStream.read, Ftp.FTPFileStream.readWith, bigClient, h1, h2,
    Bool.false_eq_true, if_false]
  rw [show Option.map List.length (some (List.replicate 8196 (7 : Nat))) =
    some (List.replicate 8196 (7 : Nat)).length from rfl]
  rw [List.length_replicate]

/-- C9 (amended): every stream handed out by the FTP `retrieve_file`
carries the default block size 8196, and `read` with no block-size
argument runs the read body with exactly that size. -/
theorem ftp_stream_reads_default_8196 (client : Ftp.FTPClient)
    (path_info : PathInfo) (s : Ftp.FTPFileStream)
    (h : Ftp.retrieve_file client path_info = .ok (some s)) :
    s.block_size = 8196 ∧
    ∀ c : Ftp.FTPClient, s.read c none = s.readWith c 8196 := by
  have hb : s.block_size = 8196 := by
    unfold Ftp.retrieve_file at h
    cases hinit : Ftp.FTPFileStream.init client path_info Ftp.defaultBlockSize with
    | ok s' =>
      rw [hinit] at h
      simp at h
      subst h
      simpa [Ftp.defaultBlockSize] using
        ftp_init_block_size client path_info Ftp.defaultBlockSize s' hinit
    | error e =>
      rw [hinit] at h
      cases e <;> simp at h
  refine ⟨hb, ?_⟩
  intro c
  simp [Ftp.FTPFileStream.read, hb]

/-- C9 witness: the amended statement applied to the concrete stream that
`retrieve_file` returns for the 9000-byte file. -/
theorem ftp_stream_reads_default_8196_witness :
    ({ ftp_path := "/A/big.bin/", file_size := 9000, file_name := "",
       block_size := 8196, conn := none } : Ftp.FTPFileStream).block_size = 8196 :=
  (ftp_stream_reads_default_8196 bigClient (PathInfo.ofString "A/big.bin")
    { ftp_path := "/A/big.bin/", file_size := 9000, file_name := "",
      block_size := 8196, conn := none } (by decide)).1
